import Mathlib

/-!
Shallow embedding of the key-lifecycle and account-state engine of
`src/app.js` (a browser-local license-key-gated account system).

Timestamps are modelled as `Nat` milliseconds; `localStorage` is modelled as
a `Store` holding the list of persisted accounts (the `user_`-prefixed keys)
together with the current-session pointer.  Each storage write may fail
(`localStorage.setItem` throwing, caught by `Storage.set` which returns
`false`); this is modelled by a `writeOk : Bool` parameter on every
operation that writes: when `writeOk = false` the write does not take
effect and `Storage.set` reports `false`.
-/

/-- A catalog entry of `CONFIG.VALID_KEYS`: code, duration class and tier,
all strings exactly as in the source. -/
structure KeyDefinition where
  code : String
  duration : String
  type : String
deriving Repr, DecidableEq

/-- The fixed catalog `CONFIG.VALID_KEYS` from `src/app.js`. -/
def VALID_KEYS : List KeyDefinition :=
  [ ⟨"DEMO-1234-ABCD-5678", "1day", "Trial"⟩,
    ⟨"TEST-KEY1-2025-GAME", "1week", "Standard"⟩,
    ⟨"FREE-BETA-KEY9-2025", "1month", "Premium"⟩,
    ⟨"PREMIUM-2025-ALPHA", "lifetime", "Premium"⟩,
    ⟨"SPECIAL-ACCESS-2025", "lifetime", "Premium"⟩,
    ⟨"ADMIN-2025-MASTER-KEY", "lifetime", "Admin"⟩ ]

/-- `CONFIG.DURATIONS[d].ms`: the millisecond offset of a duration class;
`none` both for `lifetime` (whose `ms` is `null`) and for an unknown
duration (missing property), matching the falsy test `if (!ms)` in
`Utils.calculateExpiryDate`. -/
def durationMs : String → Option Nat
  | "1day" => some 86400000
  | "1week" => some 604800000
  | "1month" => some 2592000000
  | _ => none

/-- `Utils.isExpired(expiryDate)`: `false` for a `null` expiry, otherwise
whether the current time is strictly past the expiry.  The source reads
the clock itself; here `now` is passed explicitly. -/
def Utils.isExpired (expiryDate : Option Nat) (now : Nat) : Bool :=
  match expiryDate with
  | none => false
  | some e => now > e

/-- `Utils.calculateExpiryDate(duration)`: `null` for `lifetime`, else
`Date.now() + ms` for a known duration, `null` for an unknown one. -/
def Utils.calculateExpiryDate (duration : String) (now : Nat) : Option Nat :=
  if duration = "lifetime" then none
  else
    match durationMs duration with
    | none => none
    | some ms => some (now + ms)

/-- One character class `[A-Z0-9]` of the key regex. -/
def isUpperAlnum (c : Char) : Bool :=
  (('A' ≤ c && c ≤ 'Z') || ('0' ≤ c && c ≤ '9'))

/-- One `[A-Z0-9]{4}` group of the key regex. -/
def isGroup4 (s : List Char) : Bool :=
  s.length == 4 && s.all isUpperAlnum

/-- Split a character list at every hyphen, keeping empty segments, so that
`splitDash s.toList` lists the hyphen-separated groups of `s`. -/
def splitDash : List Char → List (List Char)
  | [] => [[]]
  | c :: cs =>
    match splitDash cs with
    | g :: gs => if c == '-' then [] :: g :: gs else (c :: g) :: gs
    | [] => if c == '-' then [[], []] else [[c]]

/-- The test of `/^[A-Z0-9]{4}-[A-Z0-9]{4}-[A-Z0-9]{4}-[A-Z0-9]{4}$/`:
exactly four hyphen-separated groups, each four uppercase-alphanumeric
characters. -/
def keyPatternTest (s : String) : Bool :=
  match splitDash s.toList with
  | [a, b, c, d] => isGroup4 a && isGroup4 b && isGroup4 c && isGroup4 d
  | _ => false

/-- Result of `Validator.username` / `Validator.password`: `{valid:true}`
or `{valid:false, message}`. -/
inductive Validation where
  | ok : Validation
  | err (message : String) : Validation
deriving Repr, DecidableEq

/-- Result of `Validator.key`: failure message, or success carrying the
matched catalog entry. -/
inductive KeyValidation where
  | invalid (message : String) : KeyValidation
  | valid (data : KeyDefinition) : KeyValidation
deriving Repr, DecidableEq

/-- `Validator.username` from `src/app.js` (string length measured in code
points rather than UTF-16 units). -/
def Validator.username (username : String) : Validation :=
  if username = "" then .err "Username is required"
  else if username.length < 3 then .err "Username must be at least 3 characters"
  else if username.length > 20 then .err "Username must be less than 20 characters"
  else if !(username.toList.all (fun c => c.isAlphanum || c == '_')) then
    .err "Username can only contain letters, numbers and underscores"
  else .ok

/-- `Validator.password` from `src/app.js`. -/
def Validator.password (password : String) : Validation :=
  if password = "" then .err "Password is required"
  else if password.length < 6 then .err "Password must be at least 6 characters"
  else .ok

/-- `Validator.key` from `src/app.js`: empty check, format regex, then
exact-code catalog lookup. -/
def Validator.key (key : String) : KeyValidation :=
  if key = "" then .invalid "Key is required"
  else if !(keyPatternTest key) then
    .invalid "Invalid key format (use: XXXX-XXXX-XXXX-XXXX)"
  else
    match VALID_KEYS.find? (fun k => k.code == key) with
    | none => .invalid "Invalid or expired key"
    | some keyData => .valid keyData

/-- A redeemed key as stored inside a user record. -/
structure RedeemedKey where
  code : String
  game : String
  type : String
  duration : String
  active : Bool
  activatedDate : Nat
  expiryDate : Option Nat
deriving Repr, DecidableEq

/-- A persisted user record (`userData` built in `UserManager.create`). -/
structure Account where
  username : String
  password : String
  isAdmin : Bool
  keys : List RedeemedKey
  joinDate : Nat
  balance : Nat
  totalOrders : Nat
  lastLogin : Nat
deriving Repr, DecidableEq

/-- The observable `localStorage` state: the `user_`-prefixed records in
enumeration order, and the `currentUser` session key. -/
structure Store where
  users : List Account
  currentUser : Option String
deriving Repr, DecidableEq

/-- `Storage.get(user_ + username)`, i.e. `UserManager.get`. -/
def Store.getUser (s : Store) (username : String) : Option Account :=
  s.users.find? (fun u => u.username == username)

/-- `localStorage.setItem(user_ + username, record)`: overwrite the record
at that key if present, else append a fresh key. -/
def setUser (users : List Account) (a : Account) : List Account :=
  if users.any (fun u => u.username == a.username) then
    users.map (fun u => if u.username == a.username then a else u)
  else users ++ [a]

/-- The user record built by `UserManager.create`. -/
def newAccount (username password : String) (keyData : KeyDefinition) (now : Nat) : Account :=
  let expiryDate := Utils.calculateExpiryDate keyData.duration now
  { username := username
    password := password
    isAdmin := keyData.type == "Admin"
    keys := [{ code := keyData.code
               game := "Reverse"
               type := keyData.type
               duration := keyData.duration
               active := !(Utils.isExpired expiryDate now)
               activatedDate := now
               expiryDate := expiryDate }]
    joinDate := now
    balance := 0
    totalOrders := 0
    lastLogin := now }

/-- `UserManager.create`: build the record and attempt the storage write,
returning the new store and the `Storage.set` success flag. -/
def UserManager.create (s : Store) (writeOk : Bool) (username password : String)
    (keyData : KeyDefinition) (now : Nat) : Store × Bool :=
  if writeOk then
    ({ s with users := setUser s.users (newAccount username password keyData now) }, true)
  else (s, false)

/-- Recompute `active` for every stored key against `now`, as the loop in
`UserManager.updateKeyStatus` does. -/
def refreshKeys (keys : List RedeemedKey) (now : Nat) : List RedeemedKey :=
  keys.map (fun k => { k with active := !(Utils.isExpired k.expiryDate now) })

/-- `UserManager.updateKeyStatus(user)`: recompute every key's `active`
flag; persist the record only when some flag changed (the write result is
ignored).  Returns the new store, the refreshed user object, and whether a
write was attempted. -/
def UserManager.updateKeyStatus (s : Store) (writeOk : Bool) (user : Account)
    (now : Nat) : Store × Account × Bool :=
  let changed := user.keys.any (fun k => k.active != !(Utils.isExpired k.expiryDate now))
  let user' := { user with keys := refreshKeys user.keys now }
  let s' := if changed && writeOk then { s with users := setUser s.users user' } else s
  (s', user', changed)

/-- Result record of the engine's operations: `success`, the human-readable
`message` (empty when the source object has none) and the login redirect
destination (empty when absent). -/
structure AuthResult where
  success : Bool
  message : String
  redirectTo : String
deriving Repr, DecidableEq

/-- `Auth.register` from `src/app.js`: the three validators in order,
short-circuiting; then username-taken check; then the full-store scan for
the code; then `UserManager.create`, whose write result decides the final
message. -/
def Auth.register (s : Store) (writeOk : Bool) (username password key : String)
    (now : Nat) : Store × AuthResult :=
  match Validator.username username with
  | .err m => (s, ⟨false, m, ""⟩)
  | .ok =>
    match Validator.password password with
    | .err m => (s, ⟨false, m, ""⟩)
    | .ok =>
      match Validator.key key with
      | .invalid m => (s, ⟨false, m, ""⟩)
      | .valid keyData =>
        if (s.getUser username).isSome then (s, ⟨false, "Username already taken", ""⟩)
        else if s.users.any (fun u => u.keys.any (fun k => k.code == key)) then
          (s, ⟨false, "Key already used", ""⟩)
        else
          let res := UserManager.create s writeOk username password keyData now
          if res.2 then (res.1, ⟨true, "Account created successfully!", ""⟩)
          else (res.1, ⟨false, "Failed to create account", ""⟩)

/-- `Auth.login` from `src/app.js`: lookup, password comparison, then
`lastLogin` update, key-status refresh, persist, session-pointer write
(all three write results ignored), and the role-dependent redirect. -/
def Auth.login (s : Store) (writeOk : Bool) (username password : String)
    (now : Nat) : Store × AuthResult :=
  match s.getUser username with
  | none => (s, ⟨false, "User not found", ""⟩)
  | some user =>
    if user.password != password then (s, ⟨false, "Incorrect password", ""⟩)
    else
      let user1 := { user with lastLogin := now }
      let r := UserManager.updateKeyStatus s writeOk user1 now
      let s2 := if writeOk then { r.1 with users := setUser r.1.users r.2.1 } else r.1
      let s3 := if writeOk then { s2 with currentUser := some username } else s2
      (s3, ⟨true, "", if user.isAdmin then "admin.html" else "dashboard.html"⟩)

/-- `Auth.getCurrentUser`: resolve the session pointer and refresh the
account's key statuses. -/
def Auth.getCurrentUser (s : Store) (writeOk : Bool) (now : Nat) :
    Store × Option Account :=
  match s.currentUser with
  | none => (s, none)
  | some username =>
    match s.getUser username with
    | none => (s, none)
    | some user =>
      let r := UserManager.updateKeyStatus s writeOk user now
      (r.1, some r.2.1)

/-- `Auth.changePassword` from `src/app.js`: session check, current
password comparison, new-password validation, confirmation match, then
persist (write result ignored). -/
def Auth.changePassword (s : Store) (writeOk : Bool)
    (currentPassword newPassword confirmPassword : String) (now : Nat) :
    Store × AuthResult :=
  let r := Auth.getCurrentUser s writeOk now
  match r.2 with
  | none => (r.1, ⟨false, "Not logged in", ""⟩)
  | some user =>
    if user.password != currentPassword then
      (r.1, ⟨false, "Current password is incorrect", ""⟩)
    else
      match Validator.password newPassword with
      | .err m => (r.1, ⟨false, m, ""⟩)
      | .ok =>
        if newPassword != confirmPassword then (r.1, ⟨false, "Passwords do not match", ""⟩)
        else
          let user' := { user with password := newPassword }
          let s2 := if writeOk then { r.1 with users := setUser r.1.users user' } else r.1
          (s2, ⟨true, "Password changed successfully", ""⟩)

/-- `KeyManager.redeem(key, user)` from `src/app.js`: session check, key
validation, own-keys duplicate check, then append the redeemed key and
persist (write result ignored). -/
def KeyManager.redeem (s : Store) (writeOk : Bool) (key : String)
    (user? : Option Account) (now : Nat) : Store × AuthResult :=
  match user? with
  | none => (s, ⟨false, "Not logged in", ""⟩)
  | some user =>
    match Validator.key key with
    | .invalid m => (s, ⟨false, m, ""⟩)
    | .valid keyData =>
      if user.keys.any (fun k => k.code == key) then
        (s, ⟨false, "You already have this key", ""⟩)
      else
        let expiryDate := Utils.calculateExpiryDate keyData.duration now
        let user' := { user with keys := user.keys ++
          [{ code := key
             game := "Reverse"
             type := keyData.type
             duration := keyData.duration
             active := !(Utils.isExpired expiryDate now)
             activatedDate := now
             expiryDate := expiryDate }] }
        let s' := if writeOk then { s with users := setUser s.users user' } else s
        (s', ⟨true, "Key activated successfully!", ""⟩)

/-- `KeyManager.getActiveCount(user)`: count of keys whose stored `active`
flag is set; no refresh, no clock. -/
def KeyManager.getActiveCount (user : Account) : Nat :=
  (user.keys.filter (fun k => k.active)).length

/-! ### Helper lemmas -/

/-- After replacing every record whose username matches `a`'s, the first
matching record found is `a`. -/
lemma find?_map_replace (users : List Account) (a : Account)
    (h : users.any (fun u => u.username == a.username) = true) :
    ((users.map (fun u => if u.username == a.username then a else u)).find?
      (fun u => u.username == a.username)) = some a := by
  induction users with
  | nil => simp at h
  | cons u us ih =>
    simp only [List.map_cons]
    cases hu : (u.username == a.username) with
    | true =>
      rw [if_pos rfl, List.find?_cons_of_pos _ (by simp)]
    | false =>
      rw [if_neg (by simp), List.find?_cons_of_neg _ (by simp [hu])]
      simp only [List.any_cons, hu, Bool.false_or] at h
      exact ih h

/-- Appending a fresh record to a store that has no record with its
username makes it the first (and only) match. -/
lemma find?_append_fresh (users : List Account) (a : Account)
    (h : users.any (fun u => u.username == a.username) = false) :
    ((users ++ [a]).find? (fun u => u.username == a.username)) = some a := by
  induction users with
  | nil => simp
  | cons u us ih =>
    simp only [List.any_cons, Bool.or_eq_false_iff] at h
    rw [List.cons_append, List.find?_cons_of_neg _ (by simp [h.1])]
    exact ih h.2

/-- Looking up a record right after writing it returns that record. -/
lemma getUser_setUser (users : List Account) (a : Account) :
    (List.find? (fun u => u.username == a.username) (setUser users a)) = some a := by
  unfold setUser
  cases h : users.any (fun u => u.username == a.username) with
  | true => simpa [h] using find?_map_replace users a h
  | false => simpa [h] using find?_append_fresh users a h

/-- A per-account boolean invariant survives a store write whose written
record satisfies it. -/
lemma all_setUser (users : List Account) (a : Account) (Q : Account → Bool)
    (h1 : users.all Q = true) (h2 : Q a = true) : (setUser users a).all Q = true := by
  unfold setUser
  split
  · simp only [List.all_eq_true] at h1 ⊢
    intro u hu
    rcases List.mem_map.mp hu with ⟨v, hv, rfl⟩
    split
    · exact h2
    · exact h1 v hv
  · simp [List.all_append, h1, h2]

/-- Keys that were just refreshed against `now` all carry the freshly
recomputed `active` flag. -/
lemma refreshKeys_fresh (keys : List RedeemedKey) (now : Nat) :
    ((refreshKeys keys now).any
      (fun k => k.active != !(Utils.isExpired k.expiryDate now))) = false := by
  induction keys with
  | nil => rfl
  | cons k ks ih =>
    simp only [refreshKeys, List.map_cons, List.any_cons, Bool.or_eq_false_iff] at ih ⊢
    exact ⟨by simp, ih⟩

/-- Refreshing key statuses twice against the same clock is the same as
refreshing once. -/
lemma refreshKeys_idem (keys : List RedeemedKey) (now : Nat) :
    refreshKeys (refreshKeys keys now) now = refreshKeys keys now := by
  simp only [refreshKeys, List.map_map]
  congr 1

/-! ### C2: registering with the admin catalog key -/

/-- C2: registering with the admin catalog key `ADMIN-2025-MASTER-KEY` on
an empty store does NOT succeed: the code is listed in the catalog, yet it
fails the `XXXX-XXXX-XXXX-XXXX` format check (its groups have lengths
5, 4, 6, 3), so `register` rejects it with the format error and never
creates an account. -/
theorem admin_key_register_rejected :
    Auth.register ⟨[], none⟩ true "bob" "secret1" "ADMIN-2025-MASTER-KEY" 1000
      = (⟨[], none⟩, ⟨false, "Invalid key format (use: XXXX-XXXX-XXXX-XXXX)", ""⟩)
    ∧ (VALID_KEYS.any (fun k => k.code == "ADMIN-2025-MASTER-KEY")) = true := by
  constructor <;> decide

/-! ### C5: validateKey case analysis -/

/-- C5: `Validator.key` fails with the `Missing` message on the empty
code; fails with the `BadFormat` message whenever the code does not match
four uppercase-alphanumeric 4-character hyphen-separated groups,
independently of any catalog content (no lookup happens); fails with the
`NotFound` message when the well-formed code matches no catalog entry by
exact comparison; and otherwise succeeds returning the matched entry. -/
theorem validator_key_cases :
    (Validator.key "" = .invalid "Key is required")
    ∧ (∀ code : String, code ≠ "" → keyPatternTest code = false →
        Validator.key code = .invalid "Invalid key format (use: XXXX-XXXX-XXXX-XXXX)")
    ∧ (∀ code : String, keyPatternTest code = true →
        (VALID_KEYS.find? (fun k => k.code == code)) = none →
        Validator.key code = .invalid "Invalid or expired key")
    ∧ (∀ (code : String) (d : KeyDefinition), keyPatternTest code = true →
        (VALID_KEYS.find? (fun k => k.code == code)) = some d →
        Validator.key code = .valid d) := by
  refine ⟨rfl, ?_, ?_, ?_⟩
  · intro code hne hpat
    simp [Validator.key, hne, hpat]
  · intro code hpat hfind
    have hne : code ≠ "" := by
      intro he
      rw [he] at hpat
      exact absurd hpat (by decide)
    simp [Validator.key, hne, hpat, hfind]
  · intro code d hpat hfind
    have hne : code ≠ "" := by
      intro he
      rw [he] at hpat
      exact absurd hpat (by decide)
    simp [Validator.key, hne, hpat, hfind]

/-- Witness for C5 at concrete codes: a malformed code, a well-formed code
absent from the catalog, and a catalog code. -/
theorem validator_key_cases_witness :
    Validator.key "BAD-FORMAT" = .invalid "Invalid key format (use: XXXX-XXXX-XXXX-XXXX)"
    ∧ Validator.key "AAAA-AAAA-AAAA-AAAA" = .invalid "Invalid or expired key"
    ∧ Validator.key "DEMO-1234-ABCD-5678" = .valid ⟨"DEMO-1234-ABCD-5678", "1day", "Trial"⟩ :=
  ⟨validator_key_cases.2.1 "BAD-FORMAT" (by decide) (by decide),
   validator_key_cases.2.2.1 "AAAA-AAAA-AAAA-AAAA" (by decide) (by decide),
   validator_key_cases.2.2.2 "DEMO-1234-ABCD-5678" ⟨"DEMO-1234-ABCD-5678", "1day", "Trial"⟩
     (by decide) (by decide)⟩

/-! ### C6: duration policy and expiry boundary -/

/-- C6: non-lifetime duration classes expire exactly 1 day, 7 days or 30
days (in milliseconds) after `now`, lifetime keys get a `null` expiry; a
`null` expiry is never expired, and `isExpired` is strict: not expired at
`now = expiresAt`, expired from `now = expiresAt + 1` on. -/
theorem duration_policy_exact :
    (∀ now : Nat, Utils.calculateExpiryDate "1day" now = some (now + 86400000))
    ∧ (∀ now : Nat, Utils.calculateExpiryDate "1week" now = some (now + 604800000))
    ∧ (∀ now : Nat, Utils.calculateExpiryDate "1month" now = some (now + 2592000000))
    ∧ (∀ now : Nat, Utils.calculateExpiryDate "lifetime" now = none)
    ∧ (∀ now : Nat, Utils.isExpired none now = false)
    ∧ (∀ e now : Nat, Utils.isExpired (some e) now = decide (now > e))
    ∧ (∀ e : Nat, Utils.isExpired (some e) e = false)
    ∧ (∀ e : Nat, Utils.isExpired (some e) (e + 1) = true) := by
  refine ⟨fun now => rfl, fun now => rfl, fun now => rfl, fun now => rfl,
    fun now => rfl, fun e now => rfl, fun e => ?_, fun e => ?_⟩
  · simp [Utils.isExpired]
  · simp [Utils.isExpired]

/-! ### C7: refreshStatus is idempotent at a fixed time -/

/-- On an account none of whose flags would change, `updateKeyStatus` is a
pure no-op: it refreshes nothing, attempts no write, and leaves the store
alone. -/
lemma updateKeyStatus_noop (s : Store) (writeOk : Bool) (user : Account) (now : Nat)
    (h : (user.keys.any (fun k => k.active != !(Utils.isExpired k.expiryDate now))) = false) :
    UserManager.updateKeyStatus s writeOk user now
      = (s, { user with keys := refreshKeys user.keys now }, false) := by
  unfold UserManager.updateKeyStatus
  rw [h]
  simp

/-- C7: running `updateKeyStatus` a second time at the same clock value is
a pure no-op: no flag changes (so no write is attempted), the account
comes back unchanged, and the store is untouched. -/
theorem refresh_status_idempotent (s : Store) (writeOk : Bool) (user : Account) (now : Nat) :
    UserManager.updateKeyStatus (UserManager.updateKeyStatus s writeOk user now).1 writeOk
        (UserManager.updateKeyStatus s writeOk user now).2.1 now
      = ((UserManager.updateKeyStatus s writeOk user now).1,
         (UserManager.updateKeyStatus s writeOk user now).2.1, false) := by
  have hu : (UserManager.updateKeyStatus s writeOk user now).2.1
      = { user with keys := refreshKeys user.keys now } := rfl
  rw [hu, updateKeyStatus_noop _ _ _ _ (refreshKeys_fresh user.keys now)]
  simp [refreshKeys_idem]

/-! ### C8: create/get round-trip -/

/-- C8: after `UserManager.create` succeeds, `get` on the same username
returns an account whose single key carries the catalog entry's code,
tier and duration class, and whose `isAdmin` flag is exactly whether the
entry's tier is `Admin`. -/
theorem create_get_round_trip (s : Store) (u p : String) (kd : KeyDefinition) (now : Nat) :
    ∃ a : Account,
      ((UserManager.create s true u p kd now).1.getUser u) = some a
      ∧ (a.keys.map (fun k => (k.code, k.type, k.duration))) = [(kd.code, kd.type, kd.duration)]
      ∧ a.isAdmin = (kd.type == "Admin") := by
  refine ⟨newAccount u p kd now, ?_, rfl, rfl⟩
  have h := getUser_setUser s.users (newAccount u p kd now)
  simpa [UserManager.create, Store.getUser, newAccount] using h

/-! ### C3: activeCount versus status refresh -/

/-- C3 as stated is false: `getActiveCount` counts the stored `active`
flags and performs no refresh, so on an account holding a single key that
expired at time 5 but is still flagged `active`, at `now = 10` it returns
1 while the number of unexpired keys (the claimed value) is 0 — a
refreshed copy of the account indeed counts 0. -/
theorem active_count_stale_counterexample :
    KeyManager.getActiveCount
        ⟨"dave", "pw12345", false,
          [⟨"DEMO-1234-ABCD-5678", "Reverse", "Trial", "1day", true, 0, some 5⟩],
          0, 0, 0, 0⟩ = 1
    ∧ (([(⟨"DEMO-1234-ABCD-5678", "Reverse", "Trial", "1day", true, 0, some 5⟩ : RedeemedKey)].filter
          (fun k => match k.expiryDate with
            | none => true
            | some e => decide ((10 : Nat) ≤ e))).length) = 0
    ∧ KeyManager.getActiveCount
        (UserManager.updateKeyStatus ⟨[], none⟩ true
          ⟨"dave", "pw12345", false,
            [⟨"DEMO-1234-ABCD-5678", "Reverse", "Trial", "1day", true, 0, some 5⟩],
            0, 0, 0, 0⟩ 10).2.1 = 0 := by
  refine ⟨?_, ?_, ?_⟩ <;> decide

/-- Filtering the freshly recomputed `active` flags counts exactly the
keys that are unexpired at `now`. -/
lemma count_refresh (keys : List RedeemedKey) (now : Nat) :
    ((refreshKeys keys now).filter (fun k => k.active)).length
      = ((keys.filter (fun k => match k.expiryDate with
          | none => true
          | some e => decide (now ≤ e))).length) := by
  induction keys with
  | nil => rfl
  | cons k ks ih =>
    simp only [refreshKeys, List.map_cons, List.filter_cons] at ih ⊢
    have hhead : (!(Utils.isExpired k.expiryDate now))
        = (match k.expiryDate with | none => true | some e => decide (now ≤ e)) := by
      cases he : k.expiryDate with
      | none => simp [Utils.isExpired]
      | some e =>
        simp only [Utils.isExpired, gt_iff_lt]
        rw [← decide_not]
        simp [Nat.not_lt]
    show ((if (!(Utils.isExpired k.expiryDate now)) = true then _ else _) : List RedeemedKey).length = _
    rw [hhead]
    cases hm : (match k.expiryDate with | none => true | some e => decide (now ≤ e)) <;>
      simp [refreshKeys, ih]

/-- C3 amended: `getActiveCount` applied to the account object returned by
a status refresh at `now` equals the number of keys whose expiry is null
or not yet passed (`now ≤ expiresAt`). -/
theorem active_count_after_refresh (s : Store) (writeOk : Bool) (user : Account) (now : Nat) :
    KeyManager.getActiveCount (UserManager.updateKeyStatus s writeOk user now).2.1
      = ((user.keys.filter (fun k => match k.expiryDate with
          | none => true
          | some e => decide (now ≤ e))).length) := by
  simp only [UserManager.updateKeyStatus, KeyManager.getActiveCount]
  exact count_refresh user.keys now

/-! ### C10: lifetime keys never deactivate -/

/-- A key that is a lifetime key (null expiry) has its `active` flag set. -/
def lifetimeKeyOk (k : RedeemedKey) : Bool := k.expiryDate.isSome || k.active

/-- C10: a null expiry is never expired; every key coming out of a status
refresh, out of account creation, and out of a redemption (given the
store and account already satisfied it) satisfies: null expiry implies
`active = true`.  No operation ever turns a lifetime key inactive. -/
theorem lifetime_keys_stay_active :
    (∀ now : Nat, Utils.isExpired none now = false)
    ∧ (∀ (keys : List RedeemedKey) (now : Nat),
        ((refreshKeys keys now).all lifetimeKeyOk) = true)
    ∧ (∀ (u p : String) (kd : KeyDefinition) (now : Nat),
        ((newAccount u p kd now).keys.all lifetimeKeyOk) = true)
    ∧ (∀ (s : Store) (writeOk : Bool) (key : String) (user : Account) (now : Nat),
        (s.users.all (fun a => a.keys.all lifetimeKeyOk)) = true →
        (user.keys.all lifetimeKeyOk) = true →
        ((KeyManager.redeem s writeOk key (some user) now).1.users.all
          (fun a => a.keys.all lifetimeKeyOk)) = true) := by
  refine ⟨fun now => rfl, ?_, ?_, ?_⟩
  · intro keys now
    induction keys with
    | nil => rfl
    | cons k ks ih =>
      simp only [refreshKeys, List.map_cons, List.all_cons, Bool.and_eq_true] at ih ⊢
      refine ⟨?_, ih⟩
      cases he : k.expiryDate <;> simp [lifetimeKeyOk, Utils.isExpired, he]
  · intro u p kd now
    cases he : Utils.calculateExpiryDate kd.duration now <;>
      simp [newAccount, lifetimeKeyOk, Utils.isExpired, he]
  · intro s writeOk key user now h1 h2
    cases hv : Validator.key key with
    | invalid m =>
      have hs : (KeyManager.redeem s writeOk key (some user) now).1 = s := by
        simp [KeyManager.redeem, hv]
      rw [hs]; exact h1
    | valid d =>
      cases hd : user.keys.any (fun k => k.code == key) with
      | true =>
        have hs : (KeyManager.redeem s writeOk key (some user) now).1 = s := by
          simp [KeyManager.redeem, hv, hd]
        rw [hs]; exact h1
      | false =>
        cases writeOk with
        | false =>
          have hs : (KeyManager.redeem s false key (some user) now).1 = s := by
            simp [KeyManager.redeem, hv, hd]
          rw [hs]; exact h1
        | true =>
          have hstep : (KeyManager.redeem s true key (some user) now).1
              = { s with users := setUser s.users { user with keys := user.keys ++
                  [{ code := key, game := "Reverse", type := d.type, duration := d.duration,
                     active := !(Utils.isExpired (Utils.calculateExpiryDate d.duration now) now),
                     activatedDate := now,
                     expiryDate := Utils.calculateExpiryDate d.duration now }] } } := by
            simp [KeyManager.redeem, hv, hd]
          rw [hstep]
          refine all_setUser _ _ _ h1 ?_
          simp only [List.all_append, Bool.and_eq_true]
          refine ⟨h2, ?_⟩
          cases he : Utils.calculateExpiryDate d.duration now <;>
            simp [lifetimeKeyOk, Utils.isExpired, he]

/-- Witness for C10's redemption conjunct: redeeming a valid key into an
empty store for a fresh account preserves the lifetime-keys-active
invariant. -/
theorem lifetime_keys_stay_active_witness :
    ((KeyManager.redeem ⟨[], none⟩ true "DEMO-1234-ABCD-5678"
        (some ⟨"dave", "pw12345", false, [], 0, 0, 0, 0⟩) 1000).1.users.all
      (fun a => a.keys.all lifetimeKeyOk)) = true :=
  lifetime_keys_stay_active.2.2.2 ⟨[], none⟩ true "DEMO-1234-ABCD-5678"
    ⟨"dave", "pw12345", false, [], 0, 0, 0, 0⟩ 1000 rfl rfl

/-! ### Register case lemmas (shared by the registration claims) -/

/-- A failing username validation short-circuits `register` with that
validator's message. -/
lemma register_username_err (s : Store) (writeOk : Bool) (u p k : String) (now : Nat)
    (m : String) (h : Validator.username u = .err m) :
    Auth.register s writeOk u p k now = (s, ⟨false, m, ""⟩) := by
  simp [Auth.register, h]

/-- A failing password validation short-circuits `register` with that
validator's message, once the username passed. -/
lemma register_password_err (s : Store) (writeOk : Bool) (u p k : String) (now : Nat)
    (m : String) (h1 : Validator.username u = .ok) (h2 : Validator.password p = .err m) :
    Auth.register s writeOk u p k now = (s, ⟨false, m, ""⟩) := by
  simp [Auth.register, h1, h2]

/-- A failing key validation short-circuits `register` with that
validator's message, once username and password passed. -/
lemma register_key_err (s : Store) (writeOk : Bool) (u p k : String) (now : Nat)
    (m : String) (h1 : Validator.username u = .ok) (h2 : Validator.password p = .ok)
    (h3 : Validator.key k = .invalid m) :
    Auth.register s writeOk u p k now = (s, ⟨false, m, ""⟩) := by
  simp [Auth.register, h1, h2, h3]

/-- With all three fields valid, an existing username makes `register`
fail with the taken message. -/
lemma register_taken (s : Store) (writeOk : Bool) (u p k : String) (now : Nat)
    (d : KeyDefinition) (h1 : Validator.username u = .ok) (h2 : Validator.password p = .ok)
    (h3 : Validator.key k = .valid d) (h4 : ((s.getUser u).isSome) = true) :
    Auth.register s writeOk u p k now = (s, ⟨false, "Username already taken", ""⟩) := by
  simp [Auth.register, h1, h2, h3, h4]

/-- With all three fields valid and the username fresh, a code held by any
stored account makes `register` fail with the already-used message. -/
lemma register_key_used (s : Store) (writeOk : Bool) (u p k : String) (now : Nat)
    (d : KeyDefinition) (h1 : Validator.username u = .ok) (h2 : Validator.password p = .ok)
    (h3 : Validator.key k = .valid d) (h4 : ((s.getUser u).isSome) = false)
    (h5 : (s.users.any (fun a => a.keys.any (fun kk => kk.code == k))) = true) :
    Auth.register s writeOk u p k now = (s, ⟨false, "Key already used", ""⟩) := by
  simp [Auth.register, h1, h2, h3, h4, h5]

/-- With every check passing and the write succeeding, `register` persists
the freshly built account and reports success. -/
lemma register_success (s : Store) (u p k : String) (now : Nat)
    (d : KeyDefinition) (h1 : Validator.username u = .ok) (h2 : Validator.password p = .ok)
    (h3 : Validator.key k = .valid d) (h4 : ((s.getUser u).isSome) = false)
    (h5 : (s.users.any (fun a => a.keys.any (fun kk => kk.code == k))) = false) :
    Auth.register s true u p k now
      = ({ s with users := setUser s.users (newAccount u p d now) },
         ⟨true, "Account created successfully!", ""⟩) := by
  simp [Auth.register, h1, h2, h3, h4, h5, UserManager.create]

/-- A valid key not yet held by the redeeming account always redeems with
a success result, whatever the rest of the store holds. -/
lemma redeem_success_snd (s : Store) (writeOk : Bool) (user : Account) (code : String)
    (now : Nat) (d : KeyDefinition) (h1 : Validator.key code = .valid d)
    (h2 : (user.keys.any (fun k => k.code == code)) = false) :
    (KeyManager.redeem s writeOk code (some user) now).2.success = true := by
  simp [KeyManager.redeem, h1, h2]

/-! ### C9: register pipeline order and messages -/

/-- C9: `register` runs the username, password and key validators in that
order, short-circuiting with the failing validator's message; only then
does it reject a taken username, then a code already present in any
stored account's keys; with everything passing it persists the account
built from the matched catalog entry (so `isAdmin` is the entry's tier
being `Admin`).  All failure-kind messages are pairwise distinct. -/
theorem register_case_analysis :
    (∀ (s : Store) (writeOk : Bool) (u p k : String) (now : Nat) (m : String),
        Validator.username u = .err m →
        Auth.register s writeOk u p k now = (s, ⟨false, m, ""⟩))
    ∧ (∀ (s : Store) (writeOk : Bool) (u p k : String) (now : Nat) (m : String),
        Validator.username u = .ok → Validator.password p = .err m →
        Auth.register s writeOk u p k now = (s, ⟨false, m, ""⟩))
    ∧ (∀ (s : Store) (writeOk : Bool) (u p k : String) (now : Nat) (m : String),
        Validator.username u = .ok → Validator.password p = .ok →
        Validator.key k = .invalid m →
        Auth.register s writeOk u p k now = (s, ⟨false, m, ""⟩))
    ∧ (∀ (s : Store) (writeOk : Bool) (u p k : String) (now : Nat) (d : KeyDefinition),
        Validator.username u = .ok → Validator.password p = .ok →
        Validator.key k = .valid d → ((s.getUser u).isSome) = true →
        Auth.register s writeOk u p k now = (s, ⟨false, "Username already taken", ""⟩))
    ∧ (∀ (s : Store) (writeOk : Bool) (u p k : String) (now : Nat) (d : KeyDefinition),
        Validator.username u = .ok → Validator.password p = .ok →
        Validator.key k = .valid d → ((s.getUser u).isSome) = false →
        (s.users.any (fun a => a.keys.any (fun kk => kk.code == k))) = true →
        Auth.register s writeOk u p k now = (s, ⟨false, "Key already used", ""⟩))
    ∧ (∀ (s : Store) (u p k : String) (now : Nat) (d : KeyDefinition),
        Validator.username u = .ok → Validator.password p = .ok →
        Validator.key k = .valid d → ((s.getUser u).isSome) = false →
        (s.users.any (fun a => a.keys.any (fun kk => kk.code == k))) = false →
        Auth.register s true u p k now
          = ({ s with users := setUser s.users (newAccount u p d now) },
             ⟨true, "Account created successfully!", ""⟩))
    ∧ (["Username is required", "Username must be at least 3 characters",
        "Username must be less than 20 characters",
        "Username can only contain letters, numbers and underscores",
        "Password is required", "Password must be at least 6 characters",
        "Key is required", "Invalid key format (use: XXXX-XXXX-XXXX-XXXX)",
        "Invalid or expired key", "Username already taken", "Key already used",
        "Failed to create account"].Nodup) := by
  refine ⟨?_, ?_, ?_, ?_, ?_, ?_, by decide⟩
  · intro s writeOk u p k now m h
    exact register_username_err s writeOk u p k now m h
  · intro s writeOk u p k now m h1 h2
    exact register_password_err s writeOk u p k now m h1 h2
  · intro s writeOk u p k now m h1 h2 h3
    exact register_key_err s writeOk u p k now m h1 h2 h3
  · intro s writeOk u p k now d h1 h2 h3 h4
    exact register_taken s writeOk u p k now d h1 h2 h3 h4
  · intro s writeOk u p k now d h1 h2 h3 h4 h5
    exact register_key_used s writeOk u p k now d h1 h2 h3 h4 h5
  · intro s u p k now d h1 h2 h3 h4 h5
    exact register_success s u p k now d h1 h2 h3 h4 h5

/-- Witness for C9 at concrete inputs exercising the short-circuit order,
the taken-username and used-key conflicts, and the success path. -/
theorem register_case_analysis_witness :
    Auth.register ⟨[], none⟩ true "ab" "secret1" "DEMO-1234-ABCD-5678" 1000
      = (⟨[], none⟩, ⟨false, "Username must be at least 3 characters", ""⟩)
    ∧ Auth.register ⟨[], none⟩ true "alice" "12345" "DEMO-1234-ABCD-5678" 1000
      = (⟨[], none⟩, ⟨false, "Password must be at least 6 characters", ""⟩)
    ∧ Auth.register ⟨[], none⟩ true "alice" "secret1" "BAD-FORMAT" 1000
      = (⟨[], none⟩, ⟨false, "Invalid key format (use: XXXX-XXXX-XXXX-XXXX)", ""⟩)
    ∧ Auth.register
        ⟨setUser [] (newAccount "alice" "secret1" ⟨"DEMO-1234-ABCD-5678", "1day", "Trial"⟩ 1000), none⟩
        true "alice" "secret1" "TEST-KEY1-2025-GAME" 2000
      = (⟨setUser [] (newAccount "alice" "secret1" ⟨"DEMO-1234-ABCD-5678", "1day", "Trial"⟩ 1000), none⟩,
         ⟨false, "Username already taken", ""⟩)
    ∧ Auth.register
        ⟨setUser [] (newAccount "alice" "secret1" ⟨"DEMO-1234-ABCD-5678", "1day", "Trial"⟩ 1000), none⟩
        true "carol" "pw12345" "DEMO-1234-ABCD-5678" 2000
      = (⟨setUser [] (newAccount "alice" "secret1" ⟨"DEMO-1234-ABCD-5678", "1day", "Trial"⟩ 1000), none⟩,
         ⟨false, "Key already used", ""⟩)
    ∧ Auth.register ⟨[], none⟩ true "alice" "secret1" "DEMO-1234-ABCD-5678" 1000
      = (⟨setUser [] (newAccount "alice" "secret1" ⟨"DEMO-1234-ABCD-5678", "1day", "Trial"⟩ 1000), none⟩,
         ⟨true, "Account created successfully!", ""⟩) :=
  ⟨register_case_analysis.1 _ _ _ _ _ _ _ (by decide),
   register_case_analysis.2.1 _ _ _ _ _ _ _ (by decide) (by decide),
   register_case_analysis.2.2.1 _ _ _ _ _ _ _ (by decide) (by decide) (by decide),
   register_case_analysis.2.2.2.1 _ _ _ _ _ _ ⟨"TEST-KEY1-2025-GAME", "1week", "Standard"⟩
     (by decide) (by decide) (by decide) (by decide),
   register_case_analysis.2.2.2.2.1 _ _ _ _ _ _ ⟨"DEMO-1234-ABCD-5678", "1day", "Trial"⟩
     (by decide) (by decide) (by decide) (by decide) (by decide),
   register_case_analysis.2.2.2.2.2.1 _ _ _ _ _ ⟨"DEMO-1234-ABCD-5678", "1day", "Trial"⟩
     (by decide) (by decide) (by decide) (by decide) (by decide)⟩

/-! ### C1: global key uniqueness -/

/-- The store reached from the empty store by registering alice with the
demo key and then bob with the test key (both writes succeeding). -/
def twoUserStore : Store :=
  (Auth.register (Auth.register ⟨[], none⟩ true "alice" "secret1" "DEMO-1234-ABCD-5678" 1000).1
    true "bob" "secret1" "TEST-KEY1-2025-GAME" 2000).1

/-- C1 as stated is false: starting from the empty store, register alice
with the demo code, register bob with another code, then have bob redeem
the demo code that alice already holds.  `KeyManager.redeem` checks only
bob's own keys — there is no full-store scan — so it succeeds instead of
failing with the already-used error, and the final store holds the demo
code in two different accounts' keys. -/
theorem redeem_skips_cross_account_scan_counterexample :
    ((KeyManager.redeem twoUserStore true "DEMO-1234-ABCD-5678"
        (twoUserStore.getUser "bob") 3000).2.success = true)
    ∧ ((KeyManager.redeem twoUserStore true "DEMO-1234-ABCD-5678"
        (twoUserStore.getUser "bob") 3000).2.message = "Key activated successfully!")
    ∧ ((KeyManager.redeem twoUserStore true "DEMO-1234-ABCD-5678"
        (twoUserStore.getUser "bob") 3000).1.users.map
        (fun u => (u.username, u.keys.any (fun k => k.code == "DEMO-1234-ABCD-5678"))))
      = [("alice", true), ("bob", true)] := by
  refine ⟨?_, ?_, ?_⟩ <;> decide

/-- C1 amended: cross-account uniqueness of a catalog code is enforced
only at registration, where a full-store scan rejects a code held by any
stored account; `redeem` checks only the redeeming account's own keys and
succeeds on any valid code the account does not yet hold, even when
another account holds it, so redemptions can duplicate a code across
accounts. -/
theorem key_uniqueness_register_only :
    (∀ (s : Store) (writeOk : Bool) (u p code : String) (now : Nat) (d : KeyDefinition),
        Validator.username u = .ok → Validator.password p = .ok →
        Validator.key code = .valid d →
        ((s.getUser u).isSome) = false →
        (s.users.any (fun a => a.keys.any (fun k => k.code == code))) = true →
        Auth.register s writeOk u p code now = (s, ⟨false, "Key already used", ""⟩))
    ∧ (∀ (s : Store) (writeOk : Bool) (user : Account) (code : String) (now : Nat)
          (d : KeyDefinition),
        Validator.key code = .valid d →
        (user.keys.any (fun k => k.code == code)) = false →
        (KeyManager.redeem s writeOk code (some user) now).2.success = true) :=
  ⟨fun s writeOk u p code now d h1 h2 h3 h4 h5 =>
    register_key_used s writeOk u p code now d h1 h2 h3 h4 h5,
   fun s writeOk user code now d h1 h2 =>
    redeem_success_snd s writeOk user code now d h1 h2⟩

/-- Witness for C1's amended statement: carol's registration with alice's
already-used demo code is rejected, while bob's redemption of that same
code succeeds. -/
theorem key_uniqueness_register_only_witness :
    Auth.register twoUserStore true "carol" "pw12345" "DEMO-1234-ABCD-5678" 1500
      = (twoUserStore, ⟨false, "Key already used", ""⟩)
    ∧ (KeyManager.redeem twoUserStore true "DEMO-1234-ABCD-5678"
        (some ((twoUserStore.getUser "bob").getD ⟨"", "", false, [], 0, 0, 0, 0⟩))
        3000).2.success = true :=
  ⟨key_uniqueness_register_only.1 twoUserStore true "carol" "pw12345" "DEMO-1234-ABCD-5678"
      1500 ⟨"DEMO-1234-ABCD-5678", "1day", "Trial"⟩
      (by decide) (by decide) (by decide) (by decide) (by decide),
   key_uniqueness_register_only.2 twoUserStore true
      ((twoUserStore.getUser "bob").getD ⟨"", "", false, [], 0, 0, 0, 0⟩)
      "DEMO-1234-ABCD-5678" 3000 ⟨"DEMO-1234-ABCD-5678", "1day", "Trial"⟩
      (by decide) (by decide)⟩

/-! ### C4: behaviour under storage write failure -/

/-- C4 as stated is false: with the storage write failing, redeeming a
valid unheld key still reports success (`KeyManager.redeem` ignores the
result of `UserManager.update`), although the persisted store is indeed
left unchanged. -/
theorem redeem_reports_success_on_failed_write_counterexample :
    ((KeyManager.redeem ⟨[⟨"dave", "pw12345", false, [], 0, 0, 0, 0⟩], some "dave"⟩ false
        "DEMO-1234-ABCD-5678" (some ⟨"dave", "pw12345", false, [], 0, 0, 0, 0⟩)
        3000).2.success = true)
    ∧ ((KeyManager.redeem ⟨[⟨"dave", "pw12345", false, [], 0, 0, 0, 0⟩], some "dave"⟩ false
        "DEMO-1234-ABCD-5678" (some ⟨"dave", "pw12345", false, [], 0, 0, 0, 0⟩)
        3000).1 = ⟨[⟨"dave", "pw12345", false, [], 0, 0, 0, 0⟩], some "dave"⟩) := by
  constructor <;> decide

/-- C4 amended: when every storage write fails, all four engine
operations leave the persisted store exactly as it was (the store is
mutated last, after validation); `register` additionally reports failure,
but `login`, `redeem` and `changePassword` ignore the write result and
still report success on their success paths (existing user with matching
password; valid unheld key; active session with matching current
password, strong and confirmed new password). -/
theorem storage_write_failure_behavior :
    (∀ (s : Store) (u p k : String) (now : Nat),
        (Auth.register s false u p k now).1 = s
        ∧ (Auth.register s false u p k now).2.success = false)
    ∧ (∀ (s : Store) (u p : String) (now : Nat), (Auth.login s false u p now).1 = s)
    ∧ (∀ (s : Store) (k : String) (user? : Option Account) (now : Nat),
        (KeyManager.redeem s false k user? now).1 = s)
    ∧ (∀ (s : Store) (c n cf : String) (now : Nat),
        (Auth.changePassword s false c n cf now).1 = s)
    ∧ (∀ (s : Store) (u p : String) (now : Nat) (user : Account),
        s.getUser u = some user → (user.password != p) = false →
        (Auth.login s false u p now).2.success = true)
    ∧ (∀ (s : Store) (k : String) (user : Account) (now : Nat) (d : KeyDefinition),
        Validator.key k = .valid d →
        (user.keys.any (fun kk => kk.code == k)) = false →
        (KeyManager.redeem s false k (some user) now).2.success = true)
    ∧ (∀ (s : Store) (c n cf : String) (now : Nat) (user : Account),
        (Auth.getCurrentUser s false now).2 = some user →
        (user.password != c) = false → Validator.password n = .ok →
        (n != cf) = false →
        (Auth.changePassword s false c n cf now).2.success = true) := by
  refine ⟨?_, ?_, ?_, ?_, ?_, ?_, ?_⟩
  · intro s u p k now
    have hreg : ∃ r : AuthResult, Auth.register s false u p k now = (s, r)
        ∧ r.success = false := by
      cases hv1 : Validator.username u with
      | err m => exact ⟨_, register_username_err _ _ _ _ _ _ _ hv1, rfl⟩
      | ok =>
        cases hv2 : Validator.password p with
        | err m => exact ⟨_, register_password_err _ _ _ _ _ _ _ hv1 hv2, rfl⟩
        | ok =>
          cases hv3 : Validator.key k with
          | invalid m => exact ⟨_, register_key_err _ _ _ _ _ _ _ hv1 hv2 hv3, rfl⟩
          | valid d =>
            cases ht : ((s.getUser u).isSome) with
            | true => exact ⟨_, register_taken _ _ _ _ _ _ d hv1 hv2 hv3 ht, rfl⟩
            | false =>
              cases hu : s.users.any (fun a => a.keys.any (fun kk => kk.code == k)) with
              | true => exact ⟨_, register_key_used _ _ _ _ _ _ d hv1 hv2 hv3 ht hu, rfl⟩
              | false =>
                refine ⟨⟨false, "Failed to create account", ""⟩, ?_, rfl⟩
                simp [Auth.register, hv1, hv2, hv3, ht, hu, UserManager.create]
    obtain ⟨r, hr, hs⟩ := hreg
    rw [hr]
    exact ⟨rfl, hs⟩
  · intro s u p now
    cases hg : s.getUser u with
    | none => simp [Auth.login, hg]
    | some user =>
      cases hpw : (user.password != p) with
      | true => simp [Auth.login, hg, hpw]
      | false => simp [Auth.login, hg, hpw, UserManager.updateKeyStatus, Bool.and_false]
  · intro s k user? now
    cases user? with
    | none => rfl
    | some user =>
      cases hv : Validator.key k with
      | invalid m => simp [KeyManager.redeem, hv]
      | valid d =>
        cases hd : user.keys.any (fun kk => kk.code == k) with
        | true => simp [KeyManager.redeem, hv, hd]
        | false => simp [KeyManager.redeem, hv, hd]
  · intro s c n cf now
    have hr1 : (Auth.getCurrentUser s false now).1 = s := by
      unfold Auth.getCurrentUser
      cases hc : s.currentUser with
      | none => rfl
      | some uname =>
        cases hg : s.getUser uname with
        | none => simp [hg]
        | some user => simp [hg, UserManager.updateKeyStatus, Bool.and_false]
    simp only [Auth.changePassword]
    cases hu : (Auth.getCurrentUser s false now).2 with
    | none => simpa using hr1
    | some user =>
      cases hpw : (user.password != c) with
      | true => simpa [hpw] using hr1
      | false =>
        cases hv : Validator.password n with
        | err m => simpa [hpw, hv] using hr1
        | ok =>
          cases hcf : (n != cf) with
          | true => simpa [hpw, hv, hcf] using hr1
          | false => simpa [hpw, hv, hcf] using hr1
  · intro s u p now user hg hpw
    simp [Auth.login, hg, hpw]
  · intro s k user now d h1 h2
    exact redeem_success_snd s false user k now d h1 h2
  · intro s c n cf now user hu hpw hv hcf
    simp [Auth.changePassword, hu, hpw, hv, hcf]

/-- Witness for C4's amended success-path conjuncts at a concrete store:
with every write failing, login with the right password, redemption of a
valid unheld key, and a well-formed password change all still report
success. -/
theorem storage_write_failure_behavior_witness :
    (Auth.login ⟨[⟨"dave", "pw12345", false, [], 0, 0, 0, 0⟩], some "dave"⟩ false
        "dave" "pw12345" 3000).2.success = true
    ∧ (KeyManager.redeem ⟨[⟨"dave", "pw12345", false, [], 0, 0, 0, 0⟩], some "dave"⟩ false
        "DEMO-1234-ABCD-5678" (some ⟨"dave", "pw12345", false, [], 0, 0, 0, 0⟩)
        3000).2.success = true
    ∧ (Auth.changePassword ⟨[⟨"dave", "pw12345", false, [], 0, 0, 0, 0⟩], some "dave"⟩ false
        "pw12345" "newpass1" "newpass1" 3000).2.success = true :=
  ⟨storage_write_failure_behavior.2.2.2.2.1 _ _ _ _
      ⟨"dave", "pw12345", false, [], 0, 0, 0, 0⟩ (by decide) (by decide),
   storage_write_failure_behavior.2.2.2.2.2.1 _ _
      ⟨"dave", "pw12345", false, [], 0, 0, 0, 0⟩ _
      ⟨"DEMO-1234-ABCD-5678", "1day", "Trial"⟩ (by decide) (by decide),
   storage_write_failure_behavior.2.2.2.2.2.2 _ _ _ _ _
      ⟨"dave", "pw12345", false, [], 0, 0, 0, 0⟩
      (by decide) (by decide) (by decide) (by decide)⟩
